import Mathlib

/-!
Verification of the multi-agent document RAG pipeline (`agents.py`, `chat.py`).

The pipeline threads a state through four agent nodes
(retriever → summarizer → analyst → quality assurance), with string-sentinel
driven short-circuiting.  External collaborators (the vector retriever and the
generation model) are modelled as function parameters that may fail
(`Except String`), mirroring Python exceptions carrying `str(e)`.
-/

namespace MultiAgentRAG

/-- Python's substring test `pat in s`, as used for sentinel detection. -/
def strContains (s pat : String) : Bool := decide (pat.data <:+: s.data)

/-- The error sentinel token tested by `"Error" in content`. -/
def errorTok : String := "Error"

/-- The empty-result phrase tested by `"No relevant documents" in content`. -/
def noRelevantTok : String := "No relevant documents"

/-- The empty-result marker returned by `DocumentRetrieverTool.run` when the
retriever yields no documents (agents.py line 47). -/
def emptyResultMarker : String := "No relevant documents found for the query."

/-- A retrieved chunk.  `metadata` is accessed only at keys `source_file` and
`file_format` (with default `"Unknown"`), so only those keys are modelled. -/
structure Doc where
  page_content : String
  source_file : Option String
  file_format : Option String

/-- The underlying retriever collaborator wrapped by `DocumentRetrieverTool`.
`hasattr` probing of `get_relevant_documents` / `invoke` / `__call__` is
modelled by `Option` fields; a present capability may raise
(`Except String`, the message being `str(e)`). -/
structure Retriever where
  get_relevant_documents : Option (String → Except String (List Doc))
  invoke : Option (String → Except String (List Doc))
  call : Option (String → Except String (List Doc))

/-- The separator line, Python `"─" * 80` (agents.py line 55). -/
def sepLine : String := ⟨List.replicate 80 '─'⟩

/-- The block emitted for the `i`-th retrieved document (agents.py lines 51-55). -/
def formatDoc (i : Nat) (d : Doc) : String :=
  "📄 DOCUMENT " ++ toString i ++ " - " ++ d.source_file.getD "Unknown" ++ " (" ++
    (d.file_format.getD "Unknown").toUpper ++ ")\n" ++
  "Content: " ++ d.page_content ++ "\n" ++ sepLine ++ "\n\n"

/-- The loop `for i, doc in enumerate(docs, 1)` of agents.py lines 50-55. -/
def formatDocs : Nat → List Doc → String
  | _, [] => ""
  | i, d :: ds => formatDoc i d ++ formatDocs (i + 1) ds

/-- Handling of the fetched document list (agents.py lines 46-59): an exception
becomes `"Error retrieving documents: ..."`, an empty list becomes the
empty-result marker, otherwise the documents are formatted. -/
def DocumentRetrieverTool.handleFetch : Except String (List Doc) → String
  | .error e => "Error retrieving documents: " ++ e
  | .ok docs =>
    if docs.isEmpty then emptyResultMarker
    else "🔍 RETRIEVED DOCUMENTS:\n\n" ++ formatDocs 1 docs

/-- Model of `DocumentRetrieverTool.run` (agents.py lines 33-59): capability probing in
the fixed order `get_relevant_documents`, `invoke`, `__call__`; no capability
at all yields the unsupported-method error string. -/
def DocumentRetrieverTool.run (retriever : Retriever) (query : String) : String :=
  match retriever.get_relevant_documents with
  | some f => DocumentRetrieverTool.handleFetch (f query)
  | none =>
    match retriever.invoke with
    | some f => DocumentRetrieverTool.handleFetch (f query)
    | none =>
      match retriever.call with
      | some f => DocumentRetrieverTool.handleFetch (f query)
      | none => "Error: Retriever object has no compatible method"

/-- The summarization prompt of agents.py lines 74-86. -/
def summarizerPrompt (text : String) : String :=
  "As an expert content summarizer, please provide a comprehensive summary of the following text that preserves all critical information while being concise and well-organized:\n\nTEXT TO SUMMARIZE:\n"
  ++ text ++
  "\n\nSUMMARY REQUIREMENTS:\n- Preserve all key facts, data points, and concepts\n- Maintain context and relationships between ideas\n- Highlight the most important information\n- Ensure technical accuracy\n- Organize in a logical, readable structure\n\nCOMPREHENSIVE SUMMARY:"

/-- Model of `ContentSummarizerTool.run` (agents.py lines 68-91).  The generation
collaborator (`genai` model call, including its configuration) is the
`generate` parameter; any exception it raises is caught and converted to
`"Error generating summary: ..."`. -/
def ContentSummarizerTool.run (generate : String → Except String String)
    (text : String) : String :=
  match generate (summarizerPrompt text) with
  | .ok out => "📝 SUMMARY:\n" ++ out
  | .error e => "Error generating summary: " ++ e

/-- The analysis prompt of agents.py lines 106-120. -/
def analyzerPrompt (text : String) : String :=
  "As a senior document analyst, perform a comprehensive analysis of the following content:\n\nCONTENT FOR ANALYSIS:\n"
  ++ text ++
  "\n\nANALYSIS REQUIREMENTS:\n1. Identify and categorize main themes and key concepts\n2. Extract and highlight important data points, statistics, and metrics\n3. Analyze methodologies, approaches, or frameworks used\n4. Identify relationships, patterns, and connections between elements\n5. Note significant findings, conclusions, or recommendations\n6. Point out any gaps, contradictions, or areas needing clarification\n7. Provide insights on practical applications or implications\n\nDETAILED ANALYSIS REPORT:"

/-- Model of `DocumentAnalyzerTool.run` (agents.py lines 100-125). -/
def DocumentAnalyzerTool.run (generate : String → Except String String)
    (text : String) : String :=
  match generate (analyzerPrompt text) with
  | .ok out => "🔍 ANALYSIS RESULTS:\n" ++ out
  | .error e => "Error analyzing content: " ++ e

/-- The trailing boilerplate appended by the formatter (agents.py lines 141-147). -/
def formatterBoilerplate : String :=
  "\n\n🎯 FORMATTING FEATURES APPLIED:\n- Clear hierarchical structure with sections\n- Professional typography and spacing\n- Consistent formatting throughout\n- Enhanced readability with bullet points\n- Professional presentation standards\n- Optimized for both technical and non-technical audiences"

/-- Model of `ContentFormatterTool.run` (agents.py lines 131-149): empty or
`"Error"`-containing input is returned unchanged, otherwise the content is
wrapped in the formatting boilerplate. -/
def ContentFormatterTool.run (content : String) : String :=
  if content = "" ∨ strContains content errorTok = true then content
  else "✨ PROFESSIONALLY FORMATTED RESPONSE:\n\n" ++ content ++ formatterBoilerplate

/-- The trailing boilerplate appended by the citation manager (agents.py lines 165-169). -/
def citationBoilerplate : String :=
  "\n\n📚 SOURCES ATTRIBUTED:\n- All document references properly cited\n- Source files clearly referenced\n- Academic citation standards applied\n- Cross-references maintained for verification"

/-- Model of `CitationManagerTool.run` (agents.py lines 155-169). -/
def CitationManagerTool.run (content : String) : String :=
  if content = "" ∨ strContains content errorTok = true then content
  else "✅ CITATION MANAGEMENT APPLIED:\n\n" ++ content ++ citationBoilerplate

/-- The `AgentState` TypedDict (agents.py lines 16-24).  The `tools` entry is
carried unchanged through every node; it is modelled as a separate `Tools`
argument to the node functions. -/
structure AgentState where
  query : String
  retrieved_documents : String
  summarized_content : String
  analysis_results : String
  final_output : String
  current_step : String
  error : String

/-- The `tools` dictionary: each entry is the bound `run` method of the tool,
`none` modelling an absent dictionary key (`tools.get(...) is None`). -/
structure Tools where
  retriever : Option (String → String)
  summarizer : Option (String → String)
  analyzer : Option (String → String)
  formatter : Option (String → String)
  citations : Option (String → String)

/-- Model of `retriever_agent` (agents.py lines 172-198). -/
def retriever_agent (tools : Tools) (state : AgentState) : AgentState :=
  match tools.retriever with
  | some run =>
    { state with
      retrieved_documents := run state.query
      current_step := "retrieval_complete" }
  | none =>
    { state with
      retrieved_documents := "Retriever tool not available"
      current_step := "retrieval_complete" }

/-- Model of `summarizer_agent` (agents.py lines 200-231): summarizes only when the
retrieved text carries neither sentinel, otherwise passes it through. -/
def summarizer_agent (tools : Tools) (state : AgentState) : AgentState :=
  match tools.summarizer with
  | some run =>
    if state.retrieved_documents ≠ "" then
      let summarized_content :=
        if strContains state.retrieved_documents errorTok = false ∧
           strContains state.retrieved_documents noRelevantTok = false then
          run state.retrieved_documents
        else state.retrieved_documents
      { state with
        summarized_content := summarized_content
        current_step := "summarization_complete" }
    else
      { state with
        summarized_content := "Summarizer tool not available"
        current_step := "summarization_complete" }
  | none =>
    { state with
      summarized_content := "Summarizer tool not available"
      current_step := "summarization_complete" }

/-- Model of `analyst_agent` (agents.py lines 233-264). -/
def analyst_agent (tools : Tools) (state : AgentState) : AgentState :=
  match tools.analyzer with
  | some run =>
    if state.summarized_content ≠ "" then
      let analysis_results :=
        if strContains state.summarized_content errorTok = false ∧
           strContains state.summarized_content noRelevantTok = false then
          run state.summarized_content
        else state.summarized_content
      { state with
        analysis_results := analysis_results
        current_step := "analysis_complete" }
    else
      { state with
        analysis_results := "Analyzer tool not available"
        current_step := "analysis_complete" }
  | none =>
    { state with
      analysis_results := "Analyzer tool not available"
      current_step := "analysis_complete" }

/-- The formatting/citation block of `quality_agent` (agents.py lines 278-286),
applied to the already-selected content: format and cite only when the
formatter is present, the content is non-empty and carries no sentinel;
otherwise pass the content through. -/
def qualityFinalize (tools : Tools) (content_to_format : String) : String :=
  match tools.formatter with
  | some fmt =>
    if content_to_format ≠ "" ∧
       strContains content_to_format errorTok = false ∧
       strContains content_to_format noRelevantTok = false then
      match tools.citations with
      | some cit => cit (fmt content_to_format)
      | none => fmt content_to_format
    else content_to_format
  | none => content_to_format

/-- Model of `quality_agent` (agents.py lines 266-298): picks the first non-empty field
of `analysis_results`, `summarized_content`, `retrieved_documents`
(Python `a or b or c`, line 276), then formats and cites it unless a sentinel
is present. -/
def quality_agent (tools : Tools) (state : AgentState) : AgentState :=
  let content_to_format :=
    if state.analysis_results ≠ "" then state.analysis_results
    else if state.summarized_content ≠ "" then state.summarized_content
    else state.retrieved_documents
  { state with
    final_output := qualityFinalize tools content_to_format
    current_step := "complete" }

/-- A full set of stage implementations, as built by
`create_langgraph_multiagent` / `SimpleMultiAgent.__init__` (every tool
present); the spec allows these to be stubs. -/
structure StageImpls where
  retriever : String → String
  summarizer : String → String
  analyzer : String → String
  formatter : String → String
  citations : String → String

/-- The corresponding `tools` dictionary with every key present. -/
def StageImpls.toTools (t : StageImpls) : Tools :=
  { retriever := some t.retriever
    summarizer := some t.summarizer
    analyzer := some t.analyzer
    formatter := some t.formatter
    citations := some t.citations }

/-- The initial state built by `LangGraphMultiAgent.kickoff` (agents.py lines 343-352). -/
def initialState (query : String) : AgentState :=
  { query := query
    retrieved_documents := ""
    summarized_content := ""
    analysis_results := ""
    final_output := ""
    current_step := "started"
    error := "" }

/-- Model of `LangGraphMultiAgent.kickoff` (agents.py lines 339-359): `graph.invoke` on
the linear graph retriever → summarizer → analyst → quality_assurance → END is
the composition of the four node functions; the result is the final state's
`final_output`. -/
def LangGraphMultiAgent.kickoff (t : StageImpls) (query : String) : String :=
  (quality_agent t.toTools
    (analyst_agent t.toTools
      (summarizer_agent t.toTools
        (retriever_agent t.toTools (initialState query))))).final_output

/-- Model of `SimpleMultiAgent.kickoff` (agents.py lines 376-404): sequential chaining
with a single short-circuit check on the retrieval output. -/
def SimpleMultiAgent.kickoff (t : StageImpls) (query : String) : String :=
  let retrieved := t.retriever query
  if strContains retrieved errorTok = true ∨ strContains retrieved noRelevantTok = true then
    retrieved
  else
    let summarized := t.summarizer retrieved
    let analyzed := t.analyzer summarized
    let formatted := t.formatter analyzed
    t.citations formatted

/-- The tool set built from the two collaborators (agents.py lines 306-312 and
368-374, identical dictionaries). -/
def createTools (generate : String → Except String String) (retriever : Retriever) :
    StageImpls :=
  { retriever := DocumentRetrieverTool.run retriever
    summarizer := ContentSummarizerTool.run generate
    analyzer := DocumentAnalyzerTool.run generate
    formatter := ContentFormatterTool.run
    citations := CitationManagerTool.run }

/-- Model of `process_multi_document_query` (chat.py lines 267-347), restricted to its
result-set construction: documents are visited in order; a document with no
registered retriever is skipped (`continue`); otherwise the pipeline runs
(`run_pipeline`, which may raise), falling back to
`display_enhanced_fallback_single` (`fallback`, which may raise), and a double
failure stores the placeholder `"Error: Could not process <doc>"`. -/
def process_multi_document_query
    (document_retrievers : String → Option Retriever)
    (run_pipeline : Retriever → String → Except String String)
    (fallback : Retriever → String → Except String String)
    (query : String) : List String → List (String × String)
  | [] => []
  | doc_name :: rest =>
    match document_retrievers doc_name with
    | none => process_multi_document_query document_retrievers run_pipeline fallback query rest
    | some retriever =>
      let entry :=
        match run_pipeline retriever query with
        | .ok result => (doc_name, result)
        | .error _ =>
          match fallback retriever query with
          | .ok fr => (doc_name, fr)
          | .error _ => (doc_name, "Error: Could not process " ++ doc_name)
      entry :: process_multi_document_query document_retrievers run_pipeline fallback query rest

/-! ### Substring lemmas -/

theorem strContains_iff {s pat : String} : strContains s pat = true ↔ pat.data <:+: s.data := by
  simp [strContains]

theorem strContains_append_left {a pat : String} (b : String)
    (h : strContains a pat = true) : strContains (a ++ b) pat = true := by
  rw [strContains_iff] at h ⊢
  rw [String.data_append]
  exact h.trans ⟨[], b.data, rfl⟩

theorem strContains_append_right {b pat : String} (a : String)
    (h : strContains b pat = true) : strContains (a ++ b) pat = true := by
  rw [strContains_iff] at h ⊢
  rw [String.data_append]
  exact h.trans ⟨a.data, [], by simp⟩

theorem strContains_mid (a pat b : String) : strContains (a ++ pat ++ b) pat = true := by
  rw [strContains_iff]
  simp only [String.data_append]
  exact ⟨a.data, b.data, by simp⟩

theorem strContains_refl (s : String) : strContains s s = true := by
  rw [strContains_iff]

theorem strContains_suffix (a pat : String) : strContains (a ++ pat) pat = true :=
  strContains_append_right a (strContains_refl pat)

theorem strContains_front (pat b : String) : strContains (pat ++ b) pat = true :=
  strContains_append_left b (strContains_refl pat)

/-- A string containing the `"Error"` token is non-empty. -/
theorem ne_empty_of_contains_errorTok {s : String} (h : strContains s errorTok = true) :
    s ≠ "" := by
  intro he
  subst he
  rw [strContains_iff] at h
  have : errorTok.data = [] := List.infix_nil.mp h
  simp [errorTok] at this

/-- A string containing a non-empty token is non-empty. -/
theorem ne_empty_of_strContains {s pat : String} (hp : pat ≠ "")
    (h : strContains s pat = true) : s ≠ "" := by
  intro he
  subst he
  rw [strContains_iff] at h
  have hd : pat.data = [] := List.infix_nil.mp h
  exact hp (String.ext hd)

/-! ### Node-evaluation lemmas -/

/-- Unfolding of `summarizer_agent` when the tool is present and the retrieved
field is non-empty. -/
theorem summarizer_agent_eq (f : String → String) (tools : Tools) (state : AgentState)
    (hf : tools.summarizer = some f) (hne : state.retrieved_documents ≠ "") :
    summarizer_agent tools state =
      { state with
        summarized_content :=
          if strContains state.retrieved_documents errorTok = false ∧
             strContains state.retrieved_documents noRelevantTok = false then
            f state.retrieved_documents
          else state.retrieved_documents
        current_step := "summarization_complete" } := by
  simp only [summarizer_agent, hf]
  rw [if_pos hne]

/-- Unfolding of `analyst_agent` when the tool is present and the summarized
field is non-empty. -/
theorem analyst_agent_eq (f : String → String) (tools : Tools) (state : AgentState)
    (hf : tools.analyzer = some f) (hne : state.summarized_content ≠ "") :
    analyst_agent tools state =
      { state with
        analysis_results :=
          if strContains state.summarized_content errorTok = false ∧
             strContains state.summarized_content noRelevantTok = false then
            f state.summarized_content
          else state.summarized_content
        current_step := "analysis_complete" } := by
  simp only [analyst_agent, hf]
  rw [if_pos hne]

/-- When the selected content is empty or carries a sentinel, the quality block
passes it through unchanged, whatever tools are present. -/
theorem qualityFinalize_pass (tools : Tools) {content : String}
    (h : ¬(content ≠ "" ∧ strContains content errorTok = false ∧
           strContains content noRelevantTok = false)) :
    qualityFinalize tools content = content := by
  unfold qualityFinalize
  cases tools.formatter with
  | none => rfl
  | some fmt => exact if_neg h

/-! ### C1 — sentinel pass-through -/

/-- C1 (counterexample): the claim that every stage returns the empty-result
marker unchanged is false for the formatter: `ContentFormatterTool.run` checks
only for emptiness and the `"Error"` token, so it wraps the empty-result marker
in its formatting boilerplate instead of returning it unchanged. -/
theorem c1_counterexample :
    ContentFormatterTool.run emptyResultMarker ≠ emptyResultMarker := by decide

/-- C1 (amended): sentinel pass-through holds stage-wise as follows.  The
summarizer and analyst nodes return an input that contains the `"Error"` token
or equals the empty-result marker unchanged; the formatter and citation tools
return `"Error"`-containing input unchanged; and the quality stage passes such
content through to `final_output` unchanged (its guard skips the formatter and
citation tools on the empty-result marker, which those tools would otherwise
transform). -/
theorem c1_sentinel_forwarding (tools : Tools) (state : AgentState) (s : String)
    (hs : strContains s errorTok = true ∨ s = emptyResultMarker) :
    (∀ f, tools.summarizer = some f →
      (summarizer_agent tools { state with retrieved_documents := s }).summarized_content = s) ∧
    (∀ g, tools.analyzer = some g →
      (analyst_agent tools { state with summarized_content := s }).analysis_results = s) ∧
    (strContains s errorTok = true →
      ContentFormatterTool.run s = s ∧ CitationManagerTool.run s = s) ∧
    (quality_agent tools { state with analysis_results := s }).final_output = s := by
  have hne : s ≠ "" := by
    rcases hs with h | h
    · exact ne_empty_of_strContains (by decide) h
    · subst h; decide
  have hguard : ¬(strContains s errorTok = false ∧ strContains s noRelevantTok = false) := by
    rcases hs with h | h
    · rintro ⟨h1, -⟩; rw [h] at h1; cases h1
    · subst h; decide
  refine ⟨?_, ?_, ?_, ?_⟩
  · intro f hf
    rw [summarizer_agent_eq f tools _ hf hne]
    simp only [if_neg hguard]
  · intro g hg
    rw [analyst_agent_eq g tools _ hg hne]
    simp only [if_neg hguard]
  · intro herr
    constructor
    · unfold ContentFormatterTool.run
      rw [if_pos (Or.inr herr)]
    · unfold CitationManagerTool.run
      rw [if_pos (Or.inr herr)]
  · show qualityFinalize tools (if s ≠ "" then s else _) = s
    rw [if_pos hne]
    exact qualityFinalize_pass tools (by rintro ⟨-, hg1, hg2⟩; exact hguard ⟨hg1, hg2⟩)

/-- C1 (witness): the amended pass-through applied at the empty-result marker
in the quality stage, with the concrete full tool set. -/
theorem c1_sentinel_forwarding_witness :
    (quality_agent
      (StageImpls.mk id id id ContentFormatterTool.run CitationManagerTool.run).toTools
      { initialState "q" with analysis_results := emptyResultMarker }).final_output =
    emptyResultMarker :=
  (c1_sentinel_forwarding _ (initialState "q") emptyResultMarker (Or.inr rfl)).2.2.2

/-! ### C3 — final-output precedence in the quality stage -/

/-- C3 (counterexample): when `analysis_results`, `summarized_content` and
`retrieved_documents` are all empty, `quality_agent` sets `final_output` to the
empty string (`'' or '' or ''` evaluates to `''` and the guard then passes it
through), not to the empty-result marker as claimed. -/
theorem c3_counterexample :
    (quality_agent
        (StageImpls.mk id id id ContentFormatterTool.run CitationManagerTool.run).toTools
        (initialState "q")).final_output = "" ∧
    (quality_agent
        (StageImpls.mk id id id ContentFormatterTool.run CitationManagerTool.run).toTools
        (initialState "q")).final_output ≠ emptyResultMarker := by
  constructor
  · rfl
  · decide

/-- C3 (amended): the content selected for formatting/citation follows
first-non-empty precedence over `analysis_results`, `summarized_content`,
`retrieved_documents` — the quality output is a function of the selected field
alone — and when all three are empty, `final_output` is the empty string
(not the empty-result marker). -/
theorem c3_precedence (tools : Tools) (state : AgentState) :
    (state.analysis_results ≠ "" →
      (quality_agent tools state).final_output =
        qualityFinalize tools state.analysis_results) ∧
    (state.analysis_results = "" → state.summarized_content ≠ "" →
      (quality_agent tools state).final_output =
        qualityFinalize tools state.summarized_content) ∧
    (state.analysis_results = "" → state.summarized_content = "" →
      (quality_agent tools state).final_output =
        qualityFinalize tools state.retrieved_documents) ∧
    (state.analysis_results = "" → state.summarized_content = "" →
      state.retrieved_documents = "" →
      (quality_agent tools state).final_output = "") := by
  refine ⟨?_, ?_, ?_, ?_⟩
  · intro ha
    show qualityFinalize tools _ = _
    rw [if_pos ha]
  · intro ha hs
    show qualityFinalize tools _ = _
    rw [if_neg (by simpa using ha), if_pos hs]
  · intro ha hs
    show qualityFinalize tools _ = _
    rw [if_neg (by simpa using ha), if_neg (by simpa using hs)]
  · intro ha hs hr
    show qualityFinalize tools _ = ""
    rw [if_neg (by simpa using ha), if_neg (by simpa using hs), hr]
    exact qualityFinalize_pass tools (by simp)

/-- C3 (witness): the amended precedence applied at a state whose
`analysis_results` is non-empty, with the concrete full tool set: the final
output is derived from `analysis_results` alone. -/
theorem c3_precedence_witness :
    (quality_agent
        (StageImpls.mk id id id ContentFormatterTool.run CitationManagerTool.run).toTools
        { initialState "q" with
            analysis_results := "A", summarized_content := "S",
            retrieved_documents := "R" }).final_output =
      qualityFinalize
        (StageImpls.mk id id id ContentFormatterTool.run CitationManagerTool.run).toTools
        "A" :=
  (c3_precedence _ _).1 (by decide)

/-! ### C4 — generation failures are converted, never propagated -/

/-- C4: when the generation collaborator fails, `ContentSummarizerTool.run` and
`DocumentAnalyzerTool.run` return an error-marker sentinel string that contains
the failure reason and the `"Error"` token; the stage boundary returns a plain
string (the exception is caught, never propagated). -/
theorem c4_generation_failure (generate : String → Except String String) (text e : String) :
    (generate (summarizerPrompt text) = .error e →
      ContentSummarizerTool.run generate text = "Error generating summary: " ++ e ∧
      strContains (ContentSummarizerTool.run generate text) e = true ∧
      strContains (ContentSummarizerTool.run generate text) errorTok = true) ∧
    (generate (analyzerPrompt text) = .error e →
      DocumentAnalyzerTool.run generate text = "Error analyzing content: " ++ e ∧
      strContains (DocumentAnalyzerTool.run generate text) e = true ∧
      strContains (DocumentAnalyzerTool.run generate text) errorTok = true) := by
  constructor
  · intro h
    simp only [ContentSummarizerTool.run, h]
    refine ⟨trivial, strContains_suffix _ e, ?_⟩
    exact strContains_append_left e (by decide)
  · intro h
    simp only [DocumentAnalyzerTool.run, h]
    refine ⟨trivial, strContains_suffix _ e, ?_⟩
    exact strContains_append_left e (by decide)

/-- C4 (witness): a concrete failing generation collaborator is converted into
the summarizer error sentinel. -/
theorem c4_generation_failure_witness :
    ContentSummarizerTool.run (fun _ => .error "quota exceeded") "t" =
      "Error generating summary: " ++ "quota exceeded" :=
  ((c4_generation_failure (fun _ => .error "quota exceeded") "t" "quota exceeded").1 rfl).1

/-! ### C6 — retrieval adapter capability priority -/

/-- C6: `DocumentRetrieverTool.run` tries the underlying retriever's
capabilities in the fixed priority order `get_relevant_documents`, `invoke`,
plain callable, using the first one present; with no capability at all it
returns the unsupported-capability error marker (an `"Error"`-bearing string)
instead of raising. -/
theorem c6_capability_priority (r : Retriever) (q : String) :
    (∀ f, r.get_relevant_documents = some f →
      DocumentRetrieverTool.run r q = DocumentRetrieverTool.handleFetch (f q)) ∧
    (r.get_relevant_documents = none → ∀ f, r.invoke = some f →
      DocumentRetrieverTool.run r q = DocumentRetrieverTool.handleFetch (f q)) ∧
    (r.get_relevant_documents = none → r.invoke = none → ∀ f, r.call = some f →
      DocumentRetrieverTool.run r q = DocumentRetrieverTool.handleFetch (f q)) ∧
    (r.get_relevant_documents = none → r.invoke = none → r.call = none →
      DocumentRetrieverTool.run r q = "Error: Retriever object has no compatible method" ∧
      strContains (DocumentRetrieverTool.run r q) errorTok = true) := by
  refine ⟨?_, ?_, ?_, ?_⟩
  · intro f hf
    simp only [DocumentRetrieverTool.run, hf]
  · intro h0 f hf
    simp only [DocumentRetrieverTool.run, h0, hf]
  · intro h0 h1 f hf
    simp only [DocumentRetrieverTool.run, h0, h1, hf]
  · intro h0 h1 h2
    simp only [DocumentRetrieverTool.run, h0, h1, h2]
    exact ⟨trivial, by decide⟩

/-- C6 (witness): a retriever exposing no compatible capability yields the
unsupported-capability error marker. -/
theorem c6_capability_priority_witness :
    DocumentRetrieverTool.run ⟨none, none, none⟩ "q" =
      "Error: Retriever object has no compatible method" :=
  ((c6_capability_priority ⟨none, none, none⟩ "q").2.2.2 rfl rfl rfl).1

/-! ### C10 — formatter and citation tools preserve non-sentinel content -/

/-- C10: for non-empty content without the `"Error"` token, the formatter and
citation outputs contain the input as a contiguous substring (both tools are
total functions of the input string, so neither can raise). -/
theorem c10_content_preservation (c : String) (hne : c ≠ "")
    (herr : strContains c errorTok = false) :
    strContains (ContentFormatterTool.run c) c = true ∧
    strContains (CitationManagerTool.run c) c = true := by
  have hcond : ¬(c = "" ∨ strContains c errorTok = true) := by
    rintro (h | h)
    · exact hne h
    · rw [herr] at h; cases h
  constructor
  · unfold ContentFormatterTool.run
    rw [if_neg hcond]
    exact strContains_append_left formatterBoilerplate (strContains_suffix _ c)
  · unfold CitationManagerTool.run
    rw [if_neg hcond]
    exact strContains_append_left citationBoilerplate (strContains_suffix _ c)

/-- C10 (witness): content preservation at the concrete input `"Hello"`. -/
theorem c10_content_preservation_witness :
    strContains (ContentFormatterTool.run "Hello") "Hello" = true ∧
    strContains (CitationManagerTool.run "Hello") "Hello" = true :=
  c10_content_preservation "Hello" (by decide) (by decide)

/-! ### C8 — copy-on-write frame condition of the agent nodes -/

/-- C8: each agent node is a function from the input state to a fresh state
value (the Python nodes build a new dict via `{**state, ...}`); in the result,
`query` equals the input's `query` and every field other than the node's
designated output field and `current_step` is unchanged (the `error` field and
the `tools` entry, modelled as the separate `tools` argument, included). -/
theorem c8_frame_condition (tools : Tools) (state : AgentState) :
    ((retriever_agent tools state).query = state.query ∧
     (retriever_agent tools state).summarized_content = state.summarized_content ∧
     (retriever_agent tools state).analysis_results = state.analysis_results ∧
     (retriever_agent tools state).final_output = state.final_output ∧
     (retriever_agent tools state).error = state.error) ∧
    ((summarizer_agent tools state).query = state.query ∧
     (summarizer_agent tools state).retrieved_documents = state.retrieved_documents ∧
     (summarizer_agent tools state).analysis_results = state.analysis_results ∧
     (summarizer_agent tools state).final_output = state.final_output ∧
     (summarizer_agent tools state).error = state.error) ∧
    ((analyst_agent tools state).query = state.query ∧
     (analyst_agent tools state).retrieved_documents = state.retrieved_documents ∧
     (analyst_agent tools state).summarized_content = state.summarized_content ∧
     (analyst_agent tools state).final_output = state.final_output ∧
     (analyst_agent tools state).error = state.error) ∧
    ((quality_agent tools state).query = state.query ∧
     (quality_agent tools state).retrieved_documents = state.retrieved_documents ∧
     (quality_agent tools state).summarized_content = state.summarized_content ∧
     (quality_agent tools state).analysis_results = state.analysis_results ∧
     (quality_agent tools state).error = state.error) := by
  refine ⟨?_, ?_, ?_, ?_⟩
  · unfold retriever_agent
    cases tools.retriever <;> simp
  · unfold summarizer_agent
    cases tools.summarizer with
    | none => simp
    | some f =>
      simp only []
      split <;> simp
  · unfold analyst_agent
    cases tools.analyzer with
    | none => simp
    | some f =>
      simp only []
      split <;> simp
  · unfold quality_agent
    simp

/-! ### Executor traces -/

/-- When the retrieval output carries a sentinel, the graph executor forwards
it through every node and returns it as the final output. -/
theorem graph_kickoff_sentinel (t : StageImpls) (q : String)
    (hner : t.retriever q ≠ "")
    (hguard : ¬(strContains (t.retriever q) errorTok = false ∧
                strContains (t.retriever q) noRelevantTok = false)) :
    LangGraphMultiAgent.kickoff t q = t.retriever q := by
  simp [LangGraphMultiAgent.kickoff, retriever_agent, summarizer_agent, analyst_agent,
    quality_agent, qualityFinalize, StageImpls.toTools, initialState, hner, hguard]

/-- On a clean run (retrieval, summary and analysis outputs non-empty and
sentinel-free) the graph executor applies all four stages in order. -/
theorem graph_kickoff_clean (t : StageImpls) (q : String)
    (hr : t.retriever q ≠ "")
    (hr1 : strContains (t.retriever q) errorTok = false)
    (hr2 : strContains (t.retriever q) noRelevantTok = false)
    (hs : t.summarizer (t.retriever q) ≠ "")
    (hs1 : strContains (t.summarizer (t.retriever q)) errorTok = false)
    (hs2 : strContains (t.summarizer (t.retriever q)) noRelevantTok = false)
    (ha : t.analyzer (t.summarizer (t.retriever q)) ≠ "")
    (ha1 : strContains (t.analyzer (t.summarizer (t.retriever q))) errorTok = false)
    (ha2 : strContains (t.analyzer (t.summarizer (t.retriever q))) noRelevantTok = false) :
    LangGraphMultiAgent.kickoff t q =
      t.citations (t.formatter (t.analyzer (t.summarizer (t.retriever q)))) := by
  simp [LangGraphMultiAgent.kickoff, retriever_agent, summarizer_agent, analyst_agent,
    quality_agent, qualityFinalize, StageImpls.toTools, initialState,
    hr, hr1, hr2, hs, hs1, hs2, ha, ha1, ha2]

/-- When the retrieval output carries a sentinel, the sequential executor
returns it immediately. -/
theorem simple_kickoff_sentinel (t : StageImpls) (q : String)
    (hsent : strContains (t.retriever q) errorTok = true ∨
             strContains (t.retriever q) noRelevantTok = true) :
    SimpleMultiAgent.kickoff t q = t.retriever q := by
  unfold SimpleMultiAgent.kickoff
  exact if_pos hsent

/-- When the retrieval output carries no sentinel, the sequential executor
chains all four remaining stages unconditionally. -/
theorem simple_kickoff_clean (t : StageImpls) (q : String)
    (hr1 : strContains (t.retriever q) errorTok = false)
    (hr2 : strContains (t.retriever q) noRelevantTok = false) :
    SimpleMultiAgent.kickoff t q =
      t.citations (t.formatter (t.analyzer (t.summarizer (t.retriever q)))) := by
  unfold SimpleMultiAgent.kickoff
  rw [if_neg (by simp [hr1, hr2])]

/-! ### C2 — executor equivalence -/

/-- Stage stubs on which the two executors diverge: the summarizer emits an
error-marked output, which the graph executor forwards unchanged while the
sequential executor keeps transforming it. -/
def c2Stages : StageImpls :=
  { retriever := fun _ => "docs"
    summarizer := fun _ => "Error: boom"
    analyzer := fun t => "A:" ++ t
    formatter := ContentFormatterTool.run
    citations := CitationManagerTool.run }

/-- C2 (counterexample): with the stage set `c2Stages` (summarizer failing
with an error-marked string) the graph executor returns the summarizer's error
string unchanged, while the sequential executor still applies the analyzer to
it, so the two final outputs differ. -/
theorem c2_counterexample :
    LangGraphMultiAgent.kickoff c2Stages "q" = "Error: boom" ∧
    SimpleMultiAgent.kickoff c2Stages "q" = "A:Error: boom" ∧
    LangGraphMultiAgent.kickoff c2Stages "q" ≠ SimpleMultiAgent.kickoff c2Stages "q" := by
  refine ⟨by decide, by decide, by decide⟩

/-- C2 (amended): the two executors produce identical final output whenever the
retrieval output carries a sentinel token (both return it verbatim), and on
clean runs — retrieval, summary and analysis outputs non-empty and free of
both sentinel tokens — where both return the citation of the formatting of the
analysis; they are not equivalent in general (see the counterexample, where an
intermediate stage emits an error-marked output). -/
theorem c2_executor_equivalence (t : StageImpls) (q : String) :
    (strContains (t.retriever q) errorTok = true ∨
     strContains (t.retriever q) noRelevantTok = true →
      LangGraphMultiAgent.kickoff t q = t.retriever q ∧
      SimpleMultiAgent.kickoff t q = t.retriever q) ∧
    (strContains (t.retriever q) errorTok = false →
     strContains (t.retriever q) noRelevantTok = false →
     t.retriever q ≠ "" →
     t.summarizer (t.retriever q) ≠ "" →
     strContains (t.summarizer (t.retriever q)) errorTok = false →
     strContains (t.summarizer (t.retriever q)) noRelevantTok = false →
     t.analyzer (t.summarizer (t.retriever q)) ≠ "" →
     strContains (t.analyzer (t.summarizer (t.retriever q))) errorTok = false →
     strContains (t.analyzer (t.summarizer (t.retriever q))) noRelevantTok = false →
      LangGraphMultiAgent.kickoff t q = SimpleMultiAgent.kickoff t q) := by
  constructor
  · intro hsent
    have hner : t.retriever q ≠ "" := by
      rcases hsent with h | h
      · exact ne_empty_of_strContains (by decide) h
      · exact ne_empty_of_strContains (by decide) h
    have hguard : ¬(strContains (t.retriever q) errorTok = false ∧
                    strContains (t.retriever q) noRelevantTok = false) := by
      rcases hsent with h | h
      · rintro ⟨h1, -⟩; rw [h] at h1; cases h1
      · rintro ⟨-, h2⟩; rw [h] at h2; cases h2
    exact ⟨graph_kickoff_sentinel t q hner hguard, simple_kickoff_sentinel t q hsent⟩
  · intro hr1 hr2 hr hs hs1 hs2 ha ha1 ha2
    rw [graph_kickoff_clean t q hr hr1 hr2 hs hs1 hs2 ha ha1 ha2,
      simple_kickoff_clean t q hr1 hr2]

/-- C2 (witness): both executors return the empty-result marker verbatim when
the retrieval stage produces it. -/
theorem c2_executor_equivalence_witness :
    LangGraphMultiAgent.kickoff
        (StageImpls.mk (fun _ => emptyResultMarker) id id
          ContentFormatterTool.run CitationManagerTool.run) "q" = emptyResultMarker ∧
    SimpleMultiAgent.kickoff
        (StageImpls.mk (fun _ => emptyResultMarker) id id
          ContentFormatterTool.run CitationManagerTool.run) "q" = emptyResultMarker :=
  (c2_executor_equivalence
      (StageImpls.mk (fun _ => emptyResultMarker) id id
        ContentFormatterTool.run CitationManagerTool.run) "q").1 (Or.inr (by decide))

/-! ### C7 — empty-retrieval short-circuit -/

/-- C7: when the underlying retriever returns an empty sequence, the retrieval
stage returns the empty-result marker, and — for every summarizer and analyzer
implementation, in particular whatever the generation collaborator would do —
both executors' final output equals the marker text.  The quantification over
`sumF`/`anaF` renders the call-count-0 property: the run's result is that of
the short-circuit branch, independent of the generation-backed stages. -/
theorem c7_empty_retrieval_short_circuit (r : Retriever)
    (f : String → Except String (List Doc)) (q : String)
    (hcap : r.get_relevant_documents = some f) (hempty : f q = .ok []) :
    DocumentRetrieverTool.run r q = emptyResultMarker ∧
    ∀ sumF anaF : String → String,
      LangGraphMultiAgent.kickoff
        (StageImpls.mk (DocumentRetrieverTool.run r) sumF anaF
          ContentFormatterTool.run CitationManagerTool.run) q = emptyResultMarker ∧
      SimpleMultiAgent.kickoff
        (StageImpls.mk (DocumentRetrieverTool.run r) sumF anaF
          ContentFormatterTool.run CitationManagerTool.run) q = emptyResultMarker := by
  have hrun : DocumentRetrieverTool.run r q = emptyResultMarker := by
    simp only [DocumentRetrieverTool.run, hcap, hempty, DocumentRetrieverTool.handleFetch]
    rfl
  refine ⟨hrun, fun sumF anaF => ?_⟩
  have hner : DocumentRetrieverTool.run r q ≠ "" := by
    rw [hrun]; decide
  have hguard : ¬(strContains (DocumentRetrieverTool.run r q) errorTok = false ∧
                  strContains (DocumentRetrieverTool.run r q) noRelevantTok = false) := by
    rw [hrun]; decide
  constructor
  · rw [graph_kickoff_sentinel _ q hner hguard]
    exact hrun
  · rw [simple_kickoff_sentinel _ q
      (Or.inr (show strContains (DocumentRetrieverTool.run r q) noRelevantTok = true by
        rw [hrun]; decide))]
    exact hrun

/-- C7 (witness): a retriever yielding no documents for the spec's nonsense
query makes the graph executor return the marker text. -/
theorem c7_empty_retrieval_short_circuit_witness :
    LangGraphMultiAgent.kickoff
      (StageImpls.mk
        (DocumentRetrieverTool.run ⟨some fun _ => Except.ok [], none, none⟩) id id
        ContentFormatterTool.run CitationManagerTool.run) "xyzzy123nonsense" =
    emptyResultMarker :=
  ((c7_empty_retrieval_short_circuit ⟨some fun _ => Except.ok [], none, none⟩ _
    "xyzzy123nonsense" rfl rfl).2 id id).1

/-! ### C9 — source attribution round-trip -/

/-- The per-chunk block contains the chunk's source attribution. -/
theorem formatDoc_contains_source (i : Nat) (d : Doc) :
    strContains (formatDoc i d) (d.source_file.getD "Unknown") = true := by
  unfold formatDoc
  repeat
    first
    | exact strContains_suffix _ _
    | apply strContains_append_left

/-- The formatted document list contains every member's source attribution. -/
theorem formatDocs_contains_source (i : Nat) (d : Doc) (ds : List Doc) (hd : d ∈ ds) :
    strContains (formatDocs i ds) (d.source_file.getD "Unknown") = true := by
  induction ds generalizing i with
  | nil => cases hd
  | cons a as ih =>
    cases hd with
    | head => exact strContains_append_left _ (formatDoc_contains_source i d)
    | tail _ hmem => exact strContains_append_right _ (ih (i + 1) hmem)

/-- C9: the value of a retrieved chunk's `source_file` metadata key (default
`"Unknown"` when absent) surfaces verbatim both in the chunk's own attribution
block and in the full retrieval-stage output. -/
theorem c9_source_attribution (r : Retriever) (f : String → Except String (List Doc))
    (q : String) (docs : List Doc) (d : Doc)
    (hcap : r.get_relevant_documents = some f) (hfetch : f q = .ok docs)
    (hd : d ∈ docs) :
    (∀ i, strContains (formatDoc i d) (d.source_file.getD "Unknown") = true) ∧
    strContains (DocumentRetrieverTool.run r q) (d.source_file.getD "Unknown") = true ∧
    (d.source_file = none →
      strContains (DocumentRetrieverTool.run r q) "Unknown" = true) := by
  have hne : docs.isEmpty = false := by
    cases docs
    · cases hd
    · rfl
  have hrun : DocumentRetrieverTool.run r q =
      "🔍 RETRIEVED DOCUMENTS:\n\n" ++ formatDocs 1 docs := by
    simp [DocumentRetrieverTool.run, hcap, hfetch, DocumentRetrieverTool.handleFetch, hne]
  refine ⟨fun i => formatDoc_contains_source i d, ?_, ?_⟩
  · rw [hrun]
    exact strContains_append_right _ (formatDocs_contains_source 1 d docs hd)
  · intro hnone
    rw [hrun]
    have h := formatDocs_contains_source 1 d docs hd
    rw [hnone] at h
    exact strContains_append_right _ h

/-- C9 (witness): a chunk with `source_file = "spec.pdf"` surfaces
`"spec.pdf"` verbatim in the retrieval output. -/
theorem c9_source_attribution_witness :
    strContains
      (DocumentRetrieverTool.run
        ⟨some fun _ =>
          Except.ok [Doc.mk "Photosynthesis converts light to chemical energy."
            (some "spec.pdf") (some "pdf")], none, none⟩ "What is the main topic?")
      "spec.pdf" = true :=
  (c9_source_attribution _ _ "What is the main topic?"
    [Doc.mk "Photosynthesis converts light to chemical energy."
      (some "spec.pdf") (some "pdf")]
    (Doc.mk "Photosynthesis converts light to chemical energy."
      (some "spec.pdf") (some "pdf"))
    rfl rfl (List.Mem.head _)).2.1

/-! ### C5 — multi-target failure isolation and ordering -/

/-- Retriever registry for the C5 scenario: targets A and C succeed, target
B's retrieval adapter raises. -/
def c5Retrievers : String → Option Retriever := fun doc_name =>
  if doc_name = "A.pdf" then
    some ⟨some fun _ => Except.ok [Doc.mk "alpha" (some "A.pdf") (some "pdf")], none, none⟩
  else if doc_name = "B.pdf" then
    some ⟨some fun _ => Except.error "boom", none, none⟩
  else if doc_name = "C.pdf" then
    some ⟨some fun _ => Except.ok [Doc.mk "gamma" (some "C.pdf") (some "pdf")], none, none⟩
  else none

/-- The per-target pipeline invocation used by `process_multi_document_query`:
`get_multiagent_system` builds the graph executor over the target's retriever
and `crew.kickoff` catches internally, so the invocation returns a string
rather than raising. -/
def c5RunPipeline (generate : String → Except String String) :
    Retriever → String → Except String String :=
  fun r q => Except.ok (LangGraphMultiAgent.kickoff (createTools generate r) q)

/-- C5 (counterexample): with targets `[A, B, C]` where B's retrieval adapter
raises, processing continues in order, but B's slot holds the pipeline's own
error string `"Error retrieving documents: boom"`, which does **not** name the
target — the target-naming placeholder appears only when the pipeline
invocation itself raises and the fallback raises too. -/
theorem c5_counterexample :
    ((process_multi_document_query c5Retrievers
        (c5RunPipeline fun _ => Except.ok "GEN")
        (fun _ _ => Except.error "fallback failed") "q"
        ["A.pdf", "B.pdf", "C.pdf"]).map Prod.fst = ["A.pdf", "B.pdf", "C.pdf"]) ∧
    ((process_multi_document_query c5Retrievers
        (c5RunPipeline fun _ => Except.ok "GEN")
        (fun _ _ => Except.error "fallback failed") "q"
        ["A.pdf", "B.pdf", "C.pdf"]).get? 1 =
      some ("B.pdf", "Error retrieving documents: boom")) ∧
    strContains "Error retrieving documents: boom" "B.pdf" = false := by
  refine ⟨by decide, by decide, by decide⟩

/-- C5 (amended): a failure while processing one target never aborts the
remaining targets — the result set lists exactly the targets that have a
registered retriever, in input order — and the failing target's slot carries
the target-naming placeholder exactly when both the pipeline invocation and
the fallback raise; a failure caught inside the pipeline instead populates the
slot with the pipeline's error string (which need not name the target), and a
target with no registered retriever is skipped without a slot. -/
theorem c5_failure_isolation
    (document_retrievers : String → Option Retriever)
    (run_pipeline fallback : Retriever → String → Except String String)
    (query : String) (docs : List String) :
    ((process_multi_document_query document_retrievers run_pipeline fallback query docs).map
        Prod.fst = docs.filter fun doc => (document_retrievers doc).isSome) ∧
    (∀ doc ∈ docs, ∀ r, document_retrievers doc = some r →
      (∃ e, run_pipeline r query = .error e) →
      (∃ e, fallback r query = .error e) →
      (doc, "Error: Could not process " ++ doc) ∈
        process_multi_document_query document_retrievers run_pipeline fallback query docs) := by
  constructor
  · induction docs with
    | nil => rfl
    | cons a as ih =>
      unfold process_multi_document_query
      cases hra : document_retrievers a with
      | none => simp [hra, ih]
      | some r =>
        cases hrp : run_pipeline r query with
        | ok res => simp [hra, hrp, ih]
        | error e1 =>
          cases hfb : fallback r query with
          | ok fr => simp [hra, hrp, hfb, ih]
          | error e2 => simp [hra, hrp, hfb, ih]
  · intro doc hdoc r hr hp hf
    obtain ⟨e1, he1⟩ := hp
    obtain ⟨e2, he2⟩ := hf
    induction docs with
    | nil => cases hdoc
    | cons a as ih =>
      unfold process_multi_document_query
      cases hdoc with
      | head =>
        simp only [hr, he1, he2]
        exact List.Mem.head _
      | tail _ hmem =>
        cases hra : document_retrievers a with
        | none => exact ih hmem
        | some r2 => exact List.Mem.tail _ (ih hmem)

/-- C5 (witness): a target whose pipeline invocation and fallback both raise
receives the placeholder naming it. -/
theorem c5_failure_isolation_witness :
    ("B.pdf", "Error: Could not process " ++ "B.pdf") ∈
      process_multi_document_query (fun _ => some ⟨none, none, none⟩)
        (fun _ _ => Except.error "x") (fun _ _ => Except.error "y") "q" ["B.pdf"] :=
  (c5_failure_isolation (fun _ => some ⟨none, none, none⟩)
    (fun _ _ => Except.error "x") (fun _ _ => Except.error "y") "q" ["B.pdf"]).2
    "B.pdf" (List.Mem.head _) _ rfl ⟨"x", rfl⟩ ⟨"y", rfl⟩

end MultiAgentRAG
